import Mathlib

/-!
Shallow embedding of the license-agent client (makkenzo/license-agent-js).

Source of truth: `src/src/index.ts` (the `LicenseAgent` class) together with
`errors.ts` (the error classes, present as an unnamed source file) and
`types.ts` (the five interfaces `index.ts` imports from `./types`, present
as the second document inside `src/README.md`). The test suite is also
present as an unnamed source file.

Modelling conventions:
* Times (`Date.now()` readings and durations) are `Int` milliseconds.
* A JS `Date` value is either `new Date()` at a known millisecond instant or
  `new Date(s)` parsed from a string; parsing itself is opaque, so a `Date`
  is embedded as a constructor application, not evaluated.
* Optional JS fields become `Option`; JS truthiness of an optional boolean
  field is `jsTruthy`; `x || d` on an optional string is `jsOrElse` (falsy
  strings are exactly the empty string).
* JS records (`Record<string, unknown>`) are association lists over `String`
  keys with opaque `String` values; object spread is `recordMerge`.
* The single remote call inside `validate` is a parameter: the caller of the
  model supplies the outcome the awaited HTTP post would have had, plus the
  clock reading at which the response (or failure) was observed. Whether a
  request was issued at all, and with which body, is returned alongside the
  result so that claims about remote traffic are statable.
-/

/-- JS Date value: `new Date()` at a known millisecond instant, or
`new Date(s)` parsed from a string (parsing kept opaque). -/
inductive JsDate where
  | fromMillis (ms : Int)
  | fromString (s : String)
deriving DecidableEq

/-- Truthiness of an optional JS boolean field: `undefined` and `false` are
falsy, `true` is truthy. -/
def jsTruthy : Option Bool → Bool
  | some b => b
  | none => false

/-- JS `s || d` on an optional string: falls back to `d` when the value is
`undefined`/`null` or the empty string (the only falsy strings). -/
def jsOrElse : Option String → String → String
  | some s, d => if s = "" then d else s
  | none, d => d

/-- The error classes of `errors.ts` that can travel inside results or be
thrown by `checkOrThrow`: `NetworkError` (message plus the wrapped transport
failure) and `ValidationError` (message plus the reason/status/expiresAt/
allowedData copied from the offending result). -/
inductive AgentError where
  | network (message : String) (originalError : Option String)
  | validationFailure (message : String) (reason : Option String)
      (status : Option String) (expiresAt : Option JsDate)
      (allowedData : Option String)
deriving DecidableEq

/-- The `instanceof NetworkError` test used by `checkOrThrow`. -/
def AgentError.isNetworkError : AgentError → Bool
  | .network _ _ => true
  | _ => false

/-- Translated from the `ValidationResult` interface of `types.ts` (second
document in `src/README.md`): every field except `isValid` is optional.
Optional or nullable fields are `Option` with default `none`, so a record
literal that omits a field matches a JS object literal that omits the
key. -/
structure ValidationResult where
  isValid : Bool
  isOffline : Option Bool := none
  isGracePeriod : Option Bool := none
  reason : Option String := none
  status : Option String := none
  expiresAt : Option JsDate := none
  allowedData : Option String := none
  error : Option AgentError := none
  lastCheckedAt : Option JsDate := none
deriving DecidableEq

/-- Translated from the `CacheEntry` interface of `types.ts` — one
(result, timestamp) pair; the agent field `cache` is `Option CacheEntry`. -/
structure CacheEntry where
  result : ValidationResult
  timestamp : Int
deriving DecidableEq

/-- Translated from the `LicenseAgentConfig` interface of `types.ts`, after
the constructor has applied the defaults (`cacheTTL` 1 h, `gracePeriod`
24 h, `requestTimeout` 10 s): `serverUrl`, `apiKey`, `licenseKey` and
`productName` are required strings; `staticMetadata` is optional, with
absence modelled as the empty list. -/
structure LicenseAgentConfig where
  serverUrl : String
  apiKey : String
  licenseKey : String
  productName : String
  cacheTTL : Int := 60 * 60 * 1000
  gracePeriod : Int := 24 * 60 * 60 * 1000
  requestTimeout : Int := 10000
  staticMetadata : List (String × String) := []
deriving DecidableEq

/-- Translated from the `ValidationRequestPayload` interface of `types.ts` —
the per-call dynamic metadata; an absent or `null` `metadata` key is the
empty list (spreading `undefined` or nothing adds no keys). -/
structure ValidationRequestPayload where
  metadata : List (String × String) := []
deriving DecidableEq

/-- Translated from the `ValidationApiResponse` interface of `types.ts`:
the raw verdict — `is_valid` plus optional `status`, `reason`, `expires_at`
(ISO-8601 string) and opaque `allowed_data`. -/
structure ValidationApiResponse where
  is_valid : Bool
  reason : Option String := none
  status : Option String := none
  expires_at : Option String := none
  allowed_data : Option String := none
deriving DecidableEq

/-- The `ApiValidateRequest` interface of `src/src/index.ts` (lines 15-19):
required `license_key` and `product_name` strings plus an optional
`metadata` record, deleted from the body when the merge is empty. -/
structure ApiValidateRequest where
  license_key : String
  product_name : String
  metadata : Option (List (String × String))
deriving DecidableEq

/-- Outcome of the awaited HTTP post inside `validate`: a parsed response
body, or a transport failure (timeout, refused connection, non-2xx),
carried opaquely. -/
inductive RemoteOutcome where
  | ok (resp : ValidationApiResponse)
  | fail (transportError : String)
deriving DecidableEq

/-- The mutable state of a `LicenseAgent` instance: the single cache slot. -/
structure AgentState where
  cache : Option CacheEntry := none
deriving DecidableEq

/-- JS object-spread assignment of a single key-value pair: overwrite the
existing binding in place, or append a new one. -/
def recordAssign (m : List (String × String)) (kv : String × String) :
    List (String × String) :=
  if m.any fun p => p.1 = kv.1 then
    m.map fun p => if p.1 = kv.1 then kv else p
  else
    m ++ [kv]

/-- JS object spread of `b` over `a`: keys of `a` in order, then keys only
in `b`; on collision the value from `b` wins. -/
def recordMerge (a b : List (String × String)) : List (String × String) :=
  b.foldl recordAssign a

/-- Line 78 of `src/src/index.ts`:
`apiResult.expires_at ? new Date(apiResult.expires_at) : null` — the
truthiness test sends `undefined`, `null` and the empty string to `null`. -/
def parseExpiresAt : Option String → Option JsDate
  | some s => if s = "" then none else some (JsDate.fromString s)
  | none => none

/-- Lines 63-73 of `src/src/index.ts`: build the outbound request body —
merge static and dynamic metadata (dynamic wins), delete the `metadata` key
when the merged record is empty, and copy `config.licenseKey` and
`config.productName`. -/
def LicenseAgent.buildRequest (config : LicenseAgentConfig)
    (payload : Option ValidationRequestPayload) : ApiValidateRequest :=
  let merged := recordMerge config.staticMetadata
    (match payload with
     | some p => p.metadata
     | none => [])
  { license_key := config.licenseKey
    product_name := config.productName
    metadata := if merged = [] then none else some merged }

/-- Lines 163-170 of `src/src/index.ts` (`updateCache`): store the result,
with its `error` field erased, under the current clock reading — but only
when neither `isOffline` nor `isGracePeriod` is truthy; otherwise leave the
slot untouched. -/
def LicenseAgent.updateCache (cache : Option CacheEntry)
    (result : ValidationResult) (now : Int) : Option CacheEntry :=
  if !(jsTruthy result.isOffline) && !(jsTruthy result.isGracePeriod) then
    some { result := { result with error := none }, timestamp := now }
  else
    cache

/-- Line 93 of `src/src/index.ts`: the `NetworkError` built when the awaited
post throws, wrapping the transport failure. -/
def mkNetworkError (transportError : String) : AgentError :=
  .network "Failed to connect to license server" (some transportError)

/-- Lines 80-87 of `src/src/index.ts`: the result built from a successful
response — verdict fields copied verbatim, `expires_at` put through the
truthiness-guarded `new Date`, `lastCheckedAt` stamped with the response
time, every other field left unset. -/
def successResult (apiResult : ValidationApiResponse) (responseTime : Int) :
    ValidationResult :=
  { isValid := apiResult.is_valid
    reason := apiResult.reason
    status := apiResult.status
    expiresAt := parseExpiresAt apiResult.expires_at
    allowedData := apiResult.allowed_data
    lastCheckedAt := some (JsDate.fromMillis responseTime) }

/-- Lines 100-107 of `src/src/index.ts`: the GRACE_PERIOD result — the
cached result overlaid with the degraded-but-valid flags. -/
def graceResult (lastValidResult : ValidationResult)
    (networkError : AgentError) : ValidationResult :=
  { lastValidResult with
      isValid := true
      isOffline := some true
      isGracePeriod := some true
      reason := some "grace_period"
      error := some networkError }

/-- Lines 109-116 of `src/src/index.ts`: the EXPIRED_GRACE result — the
cached result overlaid with the failed-offline flags, reason falling back
through JS `||`. -/
def offlineFailedResult (lastValidResult : ValidationResult)
    (networkError : AgentError) : ValidationResult :=
  { lastValidResult with
      isValid := false
      isOffline := some true
      isGracePeriod := some false
      reason := some (jsOrElse lastValidResult.reason
        "offline_validation_failed")
      error := some networkError }

/-- Lines 119-124 of `src/src/index.ts`: the NO_CACHE_OFFLINE result. -/
def noCacheResult (networkError : AgentError) : ValidationResult :=
  { isValid := false
    isOffline := some true
    reason := some "network_error_no_cache"
    error := some networkError }

/-- Lines 62-126 of `src/src/index.ts`: the online attempt of `validate`,
reached when the cache is absent or stale. `now` is the clock reading taken
at the top of `validate`; `responseTime` is the (later) reading at which the
awaited post settled, used for `lastCheckedAt` and the cache timestamp. -/
def LicenseAgent.attemptOnline (config : LicenseAgentConfig)
    (cache : Option CacheEntry) (payload : Option ValidationRequestPayload)
    (now : Int) (remote : RemoteOutcome) (responseTime : Int) :
    ValidationResult × Option CacheEntry × ApiValidateRequest :=
  let requestData := LicenseAgent.buildRequest config payload
  match remote with
  | .ok apiResult =>
    let result := successResult apiResult responseTime
    (result, LicenseAgent.updateCache cache result responseTime, requestData)
  | .fail transportError =>
    let networkError := mkNetworkError transportError
    match cache with
    | some entry =>
      let lastValidResult := entry.result
      if lastValidResult.isValid
          && decide (now - entry.timestamp < config.gracePeriod) then
        (graceResult lastValidResult networkError, cache, requestData)
      else
        (offlineFailedResult lastValidResult networkError, cache, requestData)
    | none =>
      (noCacheResult networkError, none, requestData)

/-- Result of one `validate` call: the returned `ValidationResult`, the
cache slot afterwards, and the outbound request body (`none` when the call
was answered from the fresh cache and no remote call was made). -/
structure ValidateOutcome where
  result : ValidationResult
  cacheAfter : Option CacheEntry
  request : Option ApiValidateRequest
deriving DecidableEq

/-- Lines 54-127 of `src/src/index.ts` (`validate`): answer from the cache
when an entry exists and `now - entry.timestamp < cacheTTL` (returning a
shallow copy of the stored result, issuing no request); otherwise attempt
the remote call. -/
def LicenseAgent.validate (config : LicenseAgentConfig) (state : AgentState)
    (payload : Option ValidationRequestPayload) (now : Int)
    (remote : RemoteOutcome) (responseTime : Int) : ValidateOutcome :=
  match state.cache with
  | some entry =>
    if now - entry.timestamp < config.cacheTTL then
      { result := entry.result, cacheAfter := state.cache, request := none }
    else
      let o := LicenseAgent.attemptOnline config state.cache payload now
        remote responseTime
      { result := o.1, cacheAfter := o.2.1, request := some o.2.2 }
  | none =>
    let o := LicenseAgent.attemptOnline config state.cache payload now
      remote responseTime
    { result := o.1, cacheAfter := o.2.1, request := some o.2.2 }

/-- Lines 172-174 of `src/src/index.ts` (`clearCache`): empty the slot. -/
def LicenseAgent.clearCacheOp (_state : AgentState) : AgentState :=
  { cache := none }

/-- Lines 135-138 of `src/src/index.ts` (`forceValidate`): `clearCache()`
then `validate(payload)`. -/
def LicenseAgent.forceValidate (config : LicenseAgentConfig)
    (state : AgentState) (payload : Option ValidationRequestPayload)
    (now : Int) (remote : RemoteOutcome) (responseTime : Int) :
    ValidateOutcome :=
  LicenseAgent.validate config (LicenseAgent.clearCacheOp state) payload now
    remote responseTime

/-- What one `checkOrThrow` call does: resolve silently, or throw an error. -/
inductive CheckOutcome where
  | ok
  | threw (e : AgentError)
deriving DecidableEq

/-- The `ValidationError` constructor of `errors.ts`: message plus the
reason/status/expiresAt/allowedData copied verbatim from the result. -/
def mkValidationError (message : String) (result : ValidationResult) :
    AgentError :=
  .validationFailure message result.reason result.status result.expiresAt
    result.allowedData

/-- Lines 150-160 of `src/src/index.ts`: the dispatch of `checkOrThrow` on
the result `validate` produced — return when valid; return when
`isGracePeriod` is truthy; re-throw a carried `NetworkError`; otherwise
throw a `ValidationError` built from `result.reason || d` and the result. -/
def checkResult (result : ValidationResult) : CheckOutcome :=
  if result.isValid then .ok
  else if jsTruthy result.isGracePeriod then .ok
  else
    match result.error with
    | some e =>
      if e.isNetworkError then .threw e
      else .threw (mkValidationError
        (jsOrElse result.reason "License validation failed") result)
    | none =>
      .threw (mkValidationError
        (jsOrElse result.reason "License validation failed") result)

/-- Lines 147-161 of `src/src/index.ts` (`checkOrThrow`): run `validate`,
then dispatch on its result. -/
def LicenseAgent.checkOrThrow (config : LicenseAgentConfig)
    (state : AgentState) (payload : Option ValidationRequestPayload)
    (now : Int) (remote : RemoteOutcome) (responseTime : Int) :
    CheckOutcome × Option CacheEntry :=
  let o := LicenseAgent.validate config state payload now remote responseTime
  (checkResult o.result, o.cacheAfter)

/-- One externally visible operation on an agent instance, with the clock
readings and remote outcome it observed. -/
inductive AgentEvent where
  | validateCall (payload : Option ValidationRequestPayload) (now : Int)
      (remote : RemoteOutcome) (responseTime : Int)
  | forceValidateCall (payload : Option ValidationRequestPayload) (now : Int)
      (remote : RemoteOutcome) (responseTime : Int)
  | clearCacheCall

/-- The state after one operation. -/
def applyEvent (config : LicenseAgentConfig) (state : AgentState) :
    AgentEvent → AgentState
  | .validateCall p now r rt =>
    { cache := (LicenseAgent.validate config state p now r rt).cacheAfter }
  | .forceValidateCall p now r rt =>
    { cache :=
        (LicenseAgent.forceValidate config state p now r rt).cacheAfter }
  | .clearCacheCall => LicenseAgent.clearCacheOp state

/-- States reachable from a freshly constructed agent (empty cache slot) by
any sequence of `validate` / `forceValidate` / `clearCache` calls. -/
inductive Reachable (config : LicenseAgentConfig) : AgentState → Prop where
  | init : Reachable config { cache := none }
  | step {s : AgentState} (e : AgentEvent) :
      Reachable config s → Reachable config (applyEvent config s e)

/-- A result as stored by a clean online success: both degraded flags unset
and no error attached. -/
def cleanResult (r : ValidationResult) : Prop :=
  r.isOffline = none ∧ r.isGracePeriod = none ∧ r.error = none

/-- The cache slot is empty or holds a clean online-success result. -/
def cacheInvariant (state : AgentState) : Prop :=
  ∀ entry, state.cache = some entry → cleanResult entry.result

/-! ### Sample inputs (used by witnesses and counterexamples) -/

/-- A well-typed configuration with the short windows of the test suite
(`cacheTTL` 1000 ms, `gracePeriod` 5000 ms), after constructor defaults. -/
def sampleConfig : LicenseAgentConfig :=
  { serverUrl := "http:localhost:8080"
    apiKey := "prod_testprefix_testsecret"
    licenseKey := "lic_testkey"
    productName := "TestProduct"
    cacheTTL := 1000
    gracePeriod := 5000
    requestTimeout := 500 }

/-- A successful verdict, as in the test suite. -/
def sampleResponse : ValidationApiResponse :=
  { is_valid := true
    reason := some "valid"
    status := some "active"
    expires_at := some "2026-11-01T00:00:00.000Z"
    allowed_data := some "features: all" }

/-- The result a successful `validate` at time 0 would have stored. -/
def sampleCachedResult : ValidationResult :=
  successResult sampleResponse 0

/-- An invalid (revoked) verdict, as in the test suite. -/
def sampleRevokedResponse : ValidationApiResponse :=
  { is_valid := false
    reason := some "revoked"
    status := some "revoked" }

/-- An invalid (revoked) verdict result as it would be cached. -/
def sampleRevokedResult : ValidationResult :=
  successResult sampleRevokedResponse 0

/-! ### Small facts about the embedded primitives -/

theorem jsTruthy_eq_true_iff (o : Option Bool) :
    jsTruthy o = true ↔ o = some true := by
  cases o with
  | none => simp [jsTruthy]
  | some b => cases b <;> simp [jsTruthy]

/-- Unfolding: with an empty cache slot, `validate` goes online. -/
theorem validate_cache_empty (config : LicenseAgentConfig)
    (state : AgentState) (payload : Option ValidationRequestPayload)
    (now : Int) (remote : RemoteOutcome) (responseTime : Int)
    (hc : state.cache = none) :
    LicenseAgent.validate config state payload now remote responseTime =
      { result := (LicenseAgent.attemptOnline config none payload now remote
          responseTime).1
        cacheAfter := (LicenseAgent.attemptOnline config none payload now
          remote responseTime).2.1
        request := some (LicenseAgent.attemptOnline config none payload now
          remote responseTime).2.2 } := by
  unfold LicenseAgent.validate
  rw [hc]

/-- Unfolding: with a fresh entry, `validate` answers from the cache and
issues no request. -/
theorem validate_cache_fresh (config : LicenseAgentConfig)
    (state : AgentState) (payload : Option ValidationRequestPayload)
    (now : Int) (remote : RemoteOutcome) (responseTime : Int)
    (entry : CacheEntry) (hc : state.cache = some entry)
    (hfresh : now - entry.timestamp < config.cacheTTL) :
    LicenseAgent.validate config state payload now remote responseTime =
      { result := entry.result, cacheAfter := some entry, request := none } := by
  unfold LicenseAgent.validate
  rw [hc]
  simp [hfresh]

/-- Unfolding: with a stale entry, `validate` goes online with the entry
still in hand for the fallback. -/
theorem validate_cache_stale (config : LicenseAgentConfig)
    (state : AgentState) (payload : Option ValidationRequestPayload)
    (now : Int) (remote : RemoteOutcome) (responseTime : Int)
    (entry : CacheEntry) (hc : state.cache = some entry)
    (hstale : ¬ now - entry.timestamp < config.cacheTTL) :
    LicenseAgent.validate config state payload now remote responseTime =
      { result := (LicenseAgent.attemptOnline config (some entry) payload now
          remote responseTime).1
        cacheAfter := (LicenseAgent.attemptOnline config (some entry) payload
          now remote responseTime).2.1
        request := some (LicenseAgent.attemptOnline config (some entry)
          payload now remote responseTime).2.2 } := by
  unfold LicenseAgent.validate
  rw [hc]
  simp [hstale]

/-- The online attempt always posts the body `buildRequest` assembled from
the configuration and the per-call payload, whatever the outcome. -/
theorem attemptOnline_request (config : LicenseAgentConfig)
    (cache : Option CacheEntry) (payload : Option ValidationRequestPayload)
    (now : Int) (remote : RemoteOutcome) (responseTime : Int) :
    (LicenseAgent.attemptOnline config cache payload now remote
        responseTime).2.2 =
      LicenseAgent.buildRequest config payload := by
  cases remote with
  | ok resp => rfl
  | fail e =>
    cases cache with
    | none => rfl
    | some entry =>
      by_cases h : (entry.result.isValid
          && decide (now - entry.timestamp < config.gracePeriod)) = true
      · simp [LicenseAgent.attemptOnline, h]
      · simp only [LicenseAgent.attemptOnline, if_neg h]

/-! ### Claims C2, C3, C4, C5: the failure branches of `validate` -/

/-- C2: when the remote attempt of `validate` fails while the cache holds an
entry whose stored result is valid and whose age `now - entry.timestamp` is
strictly below the configured grace period, the returned result is the
stored result overlaid with `isValid = true`, `isOffline = true`,
`isGracePeriod = true`, `reason = "grace_period"` and a network-failure
error wrapping the transport failure; status, expiry, allowed data and
`lastCheckedAt` are preserved from the cached result. -/
theorem claim_C2_grace_period_fallback (config : LicenseAgentConfig)
    (state : AgentState) (payload : Option ValidationRequestPayload)
    (now responseTime : Int) (entry : CacheEntry) (transportError : String)
    (hc : state.cache = some entry)
    (hstale : ¬ now - entry.timestamp < config.cacheTTL)
    (hvalid : entry.result.isValid = true)
    (hgrace : now - entry.timestamp < config.gracePeriod) :
    (LicenseAgent.validate config state payload now (.fail transportError)
        responseTime).result =
      graceResult entry.result (mkNetworkError transportError) ∧
    graceResult entry.result (mkNetworkError transportError) =
      { entry.result with
          isValid := true
          isOffline := some true
          isGracePeriod := some true
          reason := some "grace_period"
          error := some (AgentError.network
            "Failed to connect to license server" (some transportError)) } ∧
    (graceResult entry.result (mkNetworkError transportError)).status =
      entry.result.status ∧
    (graceResult entry.result (mkNetworkError transportError)).expiresAt =
      entry.result.expiresAt ∧
    (graceResult entry.result (mkNetworkError transportError)).allowedData =
      entry.result.allowedData ∧
    (graceResult entry.result (mkNetworkError transportError)).lastCheckedAt =
      entry.result.lastCheckedAt := by
  refine ⟨?_, rfl, rfl, rfl, rfl, rfl⟩
  rw [validate_cache_stale config state payload now (.fail transportError)
    responseTime entry hc hstale]
  have hcond : (entry.result.isValid
      && decide (now - entry.timestamp < config.gracePeriod)) = true := by
    simp [hvalid, hgrace]
  simp [LicenseAgent.attemptOnline, hcond]

/-- Witness for C2 at the test-suite configuration: cached valid result from
time 0, failing remote call at time 2000 (TTL 1000 elapsed, grace period
5000 not). -/
theorem claim_C2_witness :
    (LicenseAgent.validate sampleConfig
        { cache := some { result := sampleCachedResult, timestamp := 0 } }
        none 2000 (.fail "connection refused") 2100).result =
      graceResult sampleCachedResult (mkNetworkError "connection refused") :=
  (claim_C2_grace_period_fallback sampleConfig
    { cache := some { result := sampleCachedResult, timestamp := 0 } }
    none 2000 2100 { result := sampleCachedResult, timestamp := 0 }
    "connection refused" rfl (by decide) (by decide) (by decide)).1

/-- C3: when the remote attempt of `validate` fails while the cache holds an
entry whose stored result is invalid, or whose age has reached the grace
period, the returned result is the stored result overlaid with
`isValid = false`, `isOffline = true`, `isGracePeriod = false`, reason the
stored reason with `"offline_validation_failed"` as the JS `||` fallback,
and the network-failure error. -/
theorem claim_C3_expired_grace_fallback (config : LicenseAgentConfig)
    (state : AgentState) (payload : Option ValidationRequestPayload)
    (now responseTime : Int) (entry : CacheEntry) (transportError : String)
    (hc : state.cache = some entry)
    (hstale : ¬ now - entry.timestamp < config.cacheTTL)
    (hexp : entry.result.isValid = false ∨
      config.gracePeriod ≤ now - entry.timestamp) :
    (LicenseAgent.validate config state payload now (.fail transportError)
        responseTime).result =
      offlineFailedResult entry.result (mkNetworkError transportError) ∧
    offlineFailedResult entry.result (mkNetworkError transportError) =
      { entry.result with
          isValid := false
          isOffline := some true
          isGracePeriod := some false
          reason := some (jsOrElse entry.result.reason
            "offline_validation_failed")
          error := some (AgentError.network
            "Failed to connect to license server" (some transportError)) } := by
  refine ⟨?_, rfl⟩
  rw [validate_cache_stale config state payload now (.fail transportError)
    responseTime entry hc hstale]
  have hcond : (entry.result.isValid
      && decide (now - entry.timestamp < config.gracePeriod)) = false := by
    rcases hexp with h | h
    · simp [h]
    · simp [not_lt.mpr h]
  simp [LicenseAgent.attemptOnline, hcond]

/-- Witness for C3 at the test-suite configuration: cached valid result from
time 0, failing remote call at time 6000 (grace period 5000 elapsed). -/
theorem claim_C3_witness :
    (LicenseAgent.validate sampleConfig
        { cache := some { result := sampleCachedResult, timestamp := 0 } }
        none 6000 (.fail "timeout") 6100).result =
      offlineFailedResult sampleCachedResult (mkNetworkError "timeout") :=
  (claim_C3_expired_grace_fallback sampleConfig
    { cache := some { result := sampleCachedResult, timestamp := 0 } }
    none 6000 6100 { result := sampleCachedResult, timestamp := 0 }
    "timeout" rfl (by decide) (Or.inr (by decide))).1

/-- C4: when the remote attempt of `validate` fails while the cache slot is
empty, the returned result is exactly the NO_CACHE_OFFLINE literal —
`isValid = false`, `isOffline = true`, `reason = "network_error_no_cache"`,
a network-failure error wrapping the transport failure, and every other
field (in particular `lastCheckedAt`) absent; the cache stays empty. -/
theorem claim_C4_no_cache_offline (config : LicenseAgentConfig)
    (state : AgentState) (payload : Option ValidationRequestPayload)
    (now responseTime : Int) (transportError : String)
    (hc : state.cache = none) :
    LicenseAgent.validate config state payload now (.fail transportError)
        responseTime =
      { result := noCacheResult (mkNetworkError transportError)
        cacheAfter := none
        request := some (LicenseAgent.buildRequest config payload) } ∧
    noCacheResult (mkNetworkError transportError) =
      { isValid := false
        isOffline := some true
        reason := some "network_error_no_cache"
        error := some (AgentError.network
          "Failed to connect to license server" (some transportError)) } ∧
    (noCacheResult (mkNetworkError transportError)).lastCheckedAt = none := by
  refine ⟨?_, rfl, rfl⟩
  rw [validate_cache_empty config state payload now (.fail transportError)
    responseTime hc]
  simp [LicenseAgent.attemptOnline]

/-- Witness for C4: failing remote call on a freshly constructed agent. -/
theorem claim_C4_witness :
    LicenseAgent.validate sampleConfig { cache := none } none 0
        (.fail "Network Failure") 100 =
      { result := noCacheResult (mkNetworkError "Network Failure")
        cacheAfter := none
        request := some (LicenseAgent.buildRequest sampleConfig none) } :=
  (claim_C4_no_cache_offline sampleConfig { cache := none } none 0 100
    "Network Failure" rfl).1

/-- C5: `forceValidate` is `clearCache` followed by `validate`; hence it
always issues a remote request, and whenever that request fails the result
is the NO_CACHE_OFFLINE result regardless of the cache entry that existed
before the call — the grace-period fallback is unreachable from
`forceValidate`. -/
theorem claim_C5_forceValidate_clears_then_validates
    (config : LicenseAgentConfig) (state : AgentState)
    (payload : Option ValidationRequestPayload) (now responseTime : Int)
    (remote : RemoteOutcome) :
    LicenseAgent.forceValidate config state payload now remote responseTime =
      LicenseAgent.validate config (LicenseAgent.clearCacheOp state) payload
        now remote responseTime ∧
    (LicenseAgent.forceValidate config state payload now remote
        responseTime).request =
      some (LicenseAgent.buildRequest config payload) ∧
    ∀ transportError, remote = .fail transportError →
      (LicenseAgent.forceValidate config state payload now remote
          responseTime).result =
        noCacheResult (mkNetworkError transportError) := by
  refine ⟨rfl, ?_, ?_⟩
  · rw [show LicenseAgent.forceValidate config state payload now remote
        responseTime =
        LicenseAgent.validate config { cache := none } payload now remote
          responseTime from rfl]
    rw [validate_cache_empty config { cache := none } payload now remote
      responseTime rfl]
    simp [attemptOnline_request]
  · intro transportError hfail
    subst hfail
    rw [show LicenseAgent.forceValidate config state payload now
        (.fail transportError) responseTime =
        LicenseAgent.validate config { cache := none } payload now
          (.fail transportError) responseTime from rfl]
    rw [validate_cache_empty config { cache := none } payload now
      (.fail transportError) responseTime rfl]
    simp [LicenseAgent.attemptOnline]

/-- Witness for C5: a forced validation that fails while a fresh valid
entry sat in the cache still produces the NO_CACHE_OFFLINE result. -/
theorem claim_C5_witness :
    (LicenseAgent.forceValidate sampleConfig
        { cache := some { result := sampleCachedResult, timestamp := 0 } }
        none 10 (.fail "boom") 20).result =
      noCacheResult (mkNetworkError "boom") :=
  (claim_C5_forceValidate_clears_then_validates sampleConfig
    { cache := some { result := sampleCachedResult, timestamp := 0 } }
    none 10 20 (.fail "boom")).2.2 "boom" rfl

/-! ### Claims C1 and C6: the fresh-cache and online-success paths -/

/-- `updateCache` applied to a freshly built success result always stores:
both degraded flags are unset, and erasing the (already absent) error field
changes nothing. -/
theorem updateCache_success (cache : Option CacheEntry)
    (resp : ValidationApiResponse) (responseTime : Int) :
    LicenseAgent.updateCache cache (successResult resp responseTime)
        responseTime =
      some { result := successResult resp responseTime
             timestamp := responseTime } := by
  simp [LicenseAgent.updateCache, successResult, jsTruthy]

/-- Unfolding: a `validate` call that reaches the network and receives a
response returns the translated result, stores it, and reports the posted
request body. -/
theorem validate_online_success (config : LicenseAgentConfig)
    (state : AgentState) (payload : Option ValidationRequestPayload)
    (now : Int) (resp : ValidationApiResponse) (responseTime : Int)
    (hmiss : state.cache = none ∨ ∃ entry, state.cache = some entry ∧
      ¬ now - entry.timestamp < config.cacheTTL) :
    LicenseAgent.validate config state payload now (.ok resp) responseTime =
      { result := successResult resp responseTime
        cacheAfter := some { result := successResult resp responseTime
                             timestamp := responseTime }
        request := some (LicenseAgent.buildRequest config payload) } := by
  rcases hmiss with hc | ⟨entry, hc, hstale⟩
  · rw [validate_cache_empty config state payload now (.ok resp) responseTime
      hc]
    simp [LicenseAgent.attemptOnline, updateCache_success]
  · rw [validate_cache_stale config state payload now (.ok resp) responseTime
      entry hc hstale]
    simp [LicenseAgent.attemptOnline, updateCache_success]

/-- C1: when the cache holds an entry younger than `cacheTTL`, `validate`
returns the cached result unmodified and issues no request; consequently,
after a first call that goes online and succeeds, a second call within the
TTL window of the stored timestamp issues no request and returns the first
call's result — exactly one request across the two calls. -/
theorem claim_C1_fresh_cache_single_remote_call (config : LicenseAgentConfig)
    (state st0 : AgentState)
    (payload p1 p2 : Option ValidationRequestPayload)
    (now responseTime now1 rt1 now2 rt2 : Int)
    (remote remote2 : RemoteOutcome) (entry : CacheEntry)
    (resp : ValidationApiResponse) :
    (state.cache = some entry → now - entry.timestamp < config.cacheTTL →
      LicenseAgent.validate config state payload now remote responseTime =
        { result := entry.result, cacheAfter := some entry,
          request := none }) ∧
    ((st0.cache = none ∨ ∃ e0, st0.cache = some e0 ∧
        ¬ now1 - e0.timestamp < config.cacheTTL) →
      now2 - rt1 < config.cacheTTL →
      (LicenseAgent.validate config st0 p1 now1 (.ok resp) rt1).request =
        some (LicenseAgent.buildRequest config p1) ∧
      (LicenseAgent.validate config
          { cache := (LicenseAgent.validate config st0 p1 now1 (.ok resp)
              rt1).cacheAfter } p2 now2 remote2 rt2).request = none ∧
      (LicenseAgent.validate config
          { cache := (LicenseAgent.validate config st0 p1 now1 (.ok resp)
              rt1).cacheAfter } p2 now2 remote2 rt2).result =
        (LicenseAgent.validate config st0 p1 now1 (.ok resp) rt1).result) := by
  constructor
  · intro hc hfresh
    exact validate_cache_fresh config state payload now remote responseTime
      entry hc hfresh
  · intro hmiss hwin
    have h1 := validate_online_success config st0 p1 now1 resp rt1 hmiss
    have hcache : (LicenseAgent.validate config st0 p1 now1 (.ok resp)
        rt1).cacheAfter =
        some { result := successResult resp rt1, timestamp := rt1 } := by
      rw [h1]
    have h2 := validate_cache_fresh config
      { cache := (LicenseAgent.validate config st0 p1 now1 (.ok resp)
          rt1).cacheAfter } p2 now2 remote2 rt2
      { result := successResult resp rt1, timestamp := rt1 }
      hcache hwin
    refine ⟨by rw [h1], by rw [h2], by rw [h2, h1]⟩

/-- Witness for C1: a fresh-cache hit returns the stored result with no
request, and a success at time 100 followed by a second call at time 500
(window 1000) answers the second call from the cache with the first call's
result. -/
theorem claim_C1_witness :
    LicenseAgent.validate sampleConfig
        { cache := some { result := sampleCachedResult, timestamp := 0 } }
        none 10 (.fail "down") 10 =
      { result := sampleCachedResult
        cacheAfter := some { result := sampleCachedResult, timestamp := 0 }
        request := none } ∧
    (LicenseAgent.validate sampleConfig
        { cache := (LicenseAgent.validate sampleConfig { cache := none }
            none 0 (.ok sampleResponse) 100).cacheAfter }
        none 500 (.fail "down") 600).result =
      (LicenseAgent.validate sampleConfig { cache := none } none 0
        (.ok sampleResponse) 100).result := by
  have h := claim_C1_fresh_cache_single_remote_call sampleConfig
    { cache := some { result := sampleCachedResult, timestamp := 0 } }
    { cache := none } none none none 10 10 0 100 500 600
    (.fail "down") (.fail "down")
    { result := sampleCachedResult, timestamp := 0 } sampleResponse
  exact ⟨h.1 rfl (by decide), (h.2 (Or.inl rfl) (by decide)).2.2⟩

/-- C6 (amended): a `validate` call whose remote attempt succeeds returns
the verdict translated verbatim — validity, reason, status and allowed
data copied; `expiresAt` parsed from the expiry string when that string is
present and non-empty, and absent when the verdict omits it or supplies an
empty string; `lastCheckedAt` stamped with the response time; the degraded
flags and error absent — and the result is stored in the cache. -/
theorem claim_C6_online_success_translation (config : LicenseAgentConfig)
    (state : AgentState) (payload : Option ValidationRequestPayload)
    (now : Int) (resp : ValidationApiResponse) (responseTime : Int)
    (hmiss : state.cache = none ∨ ∃ entry, state.cache = some entry ∧
      ¬ now - entry.timestamp < config.cacheTTL) :
    LicenseAgent.validate config state payload now (.ok resp) responseTime =
      { result := successResult resp responseTime
        cacheAfter := some { result := successResult resp responseTime
                             timestamp := responseTime }
        request := some (LicenseAgent.buildRequest config payload) } ∧
    successResult resp responseTime =
      { isValid := resp.is_valid
        reason := resp.reason
        status := resp.status
        expiresAt := parseExpiresAt resp.expires_at
        allowedData := resp.allowed_data
        lastCheckedAt := some (JsDate.fromMillis responseTime) } ∧
    (successResult resp responseTime).isOffline = none ∧
    (successResult resp responseTime).isGracePeriod = none ∧
    (successResult resp responseTime).error = none :=
  ⟨validate_online_success config state payload now resp responseTime hmiss,
   rfl, rfl, rfl, rfl⟩

/-- Witness for C6: the sample success response translated at time 100. -/
theorem claim_C6_witness :
    LicenseAgent.validate sampleConfig { cache := none } none 0
        (.ok sampleResponse) 100 =
      { result := successResult sampleResponse 100
        cacheAfter := some { result := successResult sampleResponse 100
                             timestamp := 100 }
        request := some (LicenseAgent.buildRequest sampleConfig none) } :=
  (claim_C6_online_success_translation sampleConfig { cache := none } none 0
    sampleResponse 100 (Or.inl rfl)).1

/-- A verdict that carries an expiry key holding the empty string. -/
def emptyExpiryResponse : ValidationApiResponse :=
  { is_valid := true
    expires_at := some "" }

/-- Counterexample to C6 as stated: a successful verdict whose expiry
string is present but empty does not yield an `expiresAt` parsed from that
string — the truthiness test on line 78 sends it to `null`, so the field is
absent even though the verdict did not omit it. -/
theorem claim_C6_counterexample :
    emptyExpiryResponse.expires_at = some "" ∧
    (LicenseAgent.validate sampleConfig { cache := none } none 0
        (.ok emptyExpiryResponse) 0).result.expiresAt = none ∧
    (LicenseAgent.validate sampleConfig { cache := none } none 0
        (.ok emptyExpiryResponse) 0).result.expiresAt ≠
      some (JsDate.fromString "") := by
  refine ⟨rfl, ?_, ?_⟩ <;>
    rw [validate_online_success sampleConfig { cache := none } none 0
      emptyExpiryResponse 0 (Or.inl rfl)] <;> decide

/-! ### Claims C7 and C8: the cache and result invariants -/

/-- A failing online attempt never writes the cache slot. -/
theorem attemptOnline_fail_cache (config : LicenseAgentConfig)
    (cache : Option CacheEntry) (payload : Option ValidationRequestPayload)
    (now : Int) (e : String) (responseTime : Int) :
    (LicenseAgent.attemptOnline config cache payload now (.fail e)
        responseTime).2.1 = cache := by
  cases cache with
  | none => rfl
  | some entry =>
    by_cases h : (entry.result.isValid
        && decide (now - entry.timestamp < config.gracePeriod)) = true
    · simp [LicenseAgent.attemptOnline, h]
    · simp only [LicenseAgent.attemptOnline, if_neg h]

/-- The freshly built success result is clean. -/
theorem successResult_clean (resp : ValidationApiResponse)
    (responseTime : Int) : cleanResult (successResult resp responseTime) :=
  ⟨rfl, rfl, rfl⟩

/-- One `validate` call keeps the cache invariant: the only write it can
perform stores a clean success result. -/
theorem validate_preserves_cacheInvariant (config : LicenseAgentConfig)
    (state : AgentState) (payload : Option ValidationRequestPayload)
    (now : Int) (remote : RemoteOutcome) (responseTime : Int)
    (h : cacheInvariant state) :
    cacheInvariant { cache := (LicenseAgent.validate config state payload now
      remote responseTime).cacheAfter } := by
  intro entry he
  rcases hc : state.cache with _ | entry0
  · rcases remote with resp | e
    · rw [validate_cache_empty config state payload now (.ok resp)
        responseTime hc] at he
      simp only [updateCache_success, LicenseAgent.attemptOnline] at he
      have : entry = { result := successResult resp responseTime
                       timestamp := responseTime } := by
        cases he
        rfl
      rw [this]
      exact successResult_clean resp responseTime
    · rw [validate_cache_empty config state payload now (.fail e)
        responseTime hc] at he
      simp only at he
      rw [attemptOnline_fail_cache] at he
      cases he
  · by_cases hfresh : now - entry0.timestamp < config.cacheTTL
    · rw [validate_cache_fresh config state payload now remote responseTime
        entry0 hc hfresh] at he
      simp only at he
      cases he
      exact h _ hc
    · rcases remote with resp | e
      · rw [validate_cache_stale config state payload now (.ok resp)
          responseTime entry0 hc hfresh] at he
        simp only [updateCache_success, LicenseAgent.attemptOnline] at he
        have : entry = { result := successResult resp responseTime
                         timestamp := responseTime } := by
          cases he
          rfl
        rw [this]
        exact successResult_clean resp responseTime
      · rw [validate_cache_stale config state payload now (.fail e)
          responseTime entry0 hc hfresh] at he
        simp only at he
        rw [attemptOnline_fail_cache] at he
        cases Option.some.inj he
        exact h _ hc

/-- Every reachable agent state satisfies the cache invariant: the slot is
empty or holds a clean online-success result. -/
theorem reachable_cacheInvariant (config : LicenseAgentConfig)
    (state : AgentState) (h : Reachable config state) :
    cacheInvariant state := by
  induction h with
  | init =>
    intro entry he
    cases he
  | step e _ ih =>
    cases e with
    | validateCall p now r rt =>
      exact validate_preserves_cacheInvariant config _ p now r rt ih
    | forceValidateCall p now r rt =>
      exact validate_preserves_cacheInvariant config
        (LicenseAgent.clearCacheOp _) p now r rt (by intro entry he; cases he)
    | clearCacheCall =>
      intro entry he
      cases he

/-- Shape of the result of one `validate` call over an invariant-satisfying
state: a truthy grace flag forces a truthy offline flag, and a truthy
offline flag forces an attached network-failure error. -/
theorem validate_result_flags (config : LicenseAgentConfig)
    (state : AgentState) (payload : Option ValidationRequestPayload)
    (now : Int) (remote : RemoteOutcome) (responseTime : Int)
    (h : cacheInvariant state) :
    (jsTruthy (LicenseAgent.validate config state payload now remote
        responseTime).result.isGracePeriod = true →
      jsTruthy (LicenseAgent.validate config state payload now remote
        responseTime).result.isOffline = true) ∧
    (jsTruthy (LicenseAgent.validate config state payload now remote
        responseTime).result.isOffline = true →
      ∃ m o, (LicenseAgent.validate config state payload now remote
        responseTime).result.error = some (AgentError.network m o)) := by
  rcases hc : state.cache with _ | entry0
  · rcases remote with resp | e
    · rw [validate_online_success config state payload now resp responseTime
        (Or.inl hc)]
      simp [successResult, jsTruthy]
    · rw [validate_cache_empty config state payload now (.fail e)
        responseTime hc]
      simp only [LicenseAgent.attemptOnline]
      refine ⟨fun hg => rfl, fun _ => ?_⟩
      exact ⟨"Failed to connect to license server", some e, rfl⟩
  · by_cases hfresh : now - entry0.timestamp < config.cacheTTL
    · rw [validate_cache_fresh config state payload now remote responseTime
        entry0 hc hfresh]
      obtain ⟨ho, hg, _⟩ := h entry0 hc
      simp [ho, hg, jsTruthy]
    · rcases remote with resp | e
      · rw [validate_online_success config state payload now resp
          responseTime (Or.inr ⟨entry0, hc, hfresh⟩)]
        simp [successResult, jsTruthy]
      · rw [validate_cache_stale config state payload now (.fail e)
          responseTime entry0 hc hfresh]
        by_cases hcond : (entry0.result.isValid
            && decide (now - entry0.timestamp < config.gracePeriod)) = true
        · simp only [LicenseAgent.attemptOnline, if_pos hcond]
          refine ⟨fun hg => rfl, fun _ => ?_⟩
          exact ⟨"Failed to connect to license server", some e, rfl⟩
        · simp only [LicenseAgent.attemptOnline, if_neg hcond]
          refine ⟨fun hg => rfl, fun _ => ?_⟩
          exact ⟨"Failed to connect to license server", some e, rfl⟩

/-- C8: every result returned by `validate` from a reachable agent state —
and every result returned by `forceValidate` from any state — satisfies
the invariant: a truthy `isGracePeriod` implies a truthy `isOffline`, and a
truthy `isOffline` implies the `error` field holds a network-failure
error. -/
theorem claim_C8_degraded_flag_invariant (config : LicenseAgentConfig)
    (state : AgentState) (payload : Option ValidationRequestPayload)
    (now : Int) (remote : RemoteOutcome) (responseTime : Int)
    (h : Reachable config state) :
    ((jsTruthy (LicenseAgent.validate config state payload now remote
        responseTime).result.isGracePeriod = true →
      jsTruthy (LicenseAgent.validate config state payload now remote
        responseTime).result.isOffline = true) ∧
    (jsTruthy (LicenseAgent.validate config state payload now remote
        responseTime).result.isOffline = true →
      ∃ m o, (LicenseAgent.validate config state payload now remote
        responseTime).result.error = some (AgentError.network m o))) ∧
    ((jsTruthy (LicenseAgent.forceValidate config state payload now remote
        responseTime).result.isGracePeriod = true →
      jsTruthy (LicenseAgent.forceValidate config state payload now remote
        responseTime).result.isOffline = true) ∧
    (jsTruthy (LicenseAgent.forceValidate config state payload now remote
        responseTime).result.isOffline = true →
      ∃ m o, (LicenseAgent.forceValidate config state payload now remote
        responseTime).result.error = some (AgentError.network m o))) :=
  ⟨validate_result_flags config state payload now remote responseTime
    (reachable_cacheInvariant config state h),
   validate_result_flags config (LicenseAgent.clearCacheOp state) payload
    now remote responseTime (fun entry he => by cases he)⟩

/-- Witness for C8: on a freshly constructed agent whose first remote call
fails, the offline result carries a network-failure error. -/
theorem claim_C8_witness :
    ∃ m o, (LicenseAgent.validate sampleConfig { cache := none } none 0
      (.fail "down") 0).result.error = some (AgentError.network m o) :=
  (claim_C8_degraded_flag_invariant sampleConfig { cache := none } none 0
    (.fail "down") 0 Reachable.init).1.2 (by decide)

/-- A result whose `isOffline` key is present but set to `false`. -/
def falseOfflineResult : ValidationResult :=
  { isValid := true
    isOffline := some false }

/-- Counterexample to C7 as stated: `updateCache` decides by JS truthiness,
not by presence — a result whose `isOffline` key is set to `false` (so not
unset) is still stored, where the claim requires a silent no-op. -/
theorem claim_C7_counterexample :
    falseOfflineResult.isOffline ≠ none ∧
    LicenseAgent.updateCache none falseOfflineResult 5 ≠ none := by
  decide

/-- C7 (amended): `updateCache` stores the result, with its error field
erased, under the current clock reading iff neither `isOffline` nor
`isGracePeriod` is truthy (each unset or `false`), and is silently a no-op
otherwise; `clearCacheOp` unconditionally empties the slot; and in every
reachable agent state the slot is empty or holds a clean result — both
degraded flags unset and no error — so degraded answers are never cached. -/
theorem claim_C7_cache_write_discipline (config : LicenseAgentConfig)
    (state : AgentState) (cache : Option CacheEntry)
    (result : ValidationResult) (now : Int) :
    (jsTruthy result.isOffline = false → jsTruthy result.isGracePeriod = false →
      LicenseAgent.updateCache cache result now =
        some { result := { result with error := none }, timestamp := now }) ∧
    (jsTruthy result.isOffline = true ∨ jsTruthy result.isGracePeriod = true →
      LicenseAgent.updateCache cache result now = cache) ∧
    LicenseAgent.clearCacheOp state = { cache := none } ∧
    (Reachable config state → cacheInvariant state) := by
  refine ⟨?_, ?_, rfl, reachable_cacheInvariant config state⟩
  · intro h1 h2
    simp [LicenseAgent.updateCache, h1, h2]
  · intro h
    rcases h with h | h <;> simp [LicenseAgent.updateCache, h]

/-- Witness for C7: a clean valid result is stored with its timestamp, and
an offline result leaves the slot alone. -/
theorem claim_C7_witness :
    LicenseAgent.updateCache none sampleCachedResult 7 =
      some { result := { sampleCachedResult with error := none }
             timestamp := 7 } ∧
    LicenseAgent.updateCache none
      (noCacheResult (mkNetworkError "down")) 7 = none :=
  ⟨(claim_C7_cache_write_discipline sampleConfig { cache := none } none
      sampleCachedResult 7).1 (by decide) (by decide),
   (claim_C7_cache_write_discipline sampleConfig { cache := none } none
      (noCacheResult (mkNetworkError "down")) 7).2.1 (Or.inl (by decide))⟩

/-! ### Claim C9: the strict checker -/

/-- Dispatch behavior of `checkResult` on an arbitrary result: silent when
valid or in grace period; the carried network error re-thrown when invalid
without grace coverage; otherwise a `ValidationError` carrying the
reason (with JS `||` fallback message), status, expiry and allowed data. -/
theorem checkResult_dispatch (result : ValidationResult) :
    ((result.isValid = true ∨ result.isGracePeriod = some true) →
      checkResult result = .ok) ∧
    (result.isValid = false → result.isGracePeriod ≠ some true →
      ∀ e, result.error = some e → e.isNetworkError = true →
        checkResult result = .threw e) ∧
    (result.isValid = false → result.isGracePeriod ≠ some true →
      (∀ e, result.error = some e → e.isNetworkError = false) →
      checkResult result = .threw (AgentError.validationFailure
        (jsOrElse result.reason "License validation failed") result.reason
        result.status result.expiresAt result.allowedData)) := by
  refine ⟨?_, ?_, ?_⟩
  · intro h
    rcases h with h | h
    · simp [checkResult, h]
    · by_cases hv : result.isValid = true
      · simp [checkResult, hv]
      · simp only [Bool.not_eq_true] at hv
        simp [checkResult, hv, h, jsTruthy]
  · intro hv hg e he hn
    have hgf : jsTruthy result.isGracePeriod = false := by
      rcases hb : jsTruthy result.isGracePeriod
      · rfl
      · exact absurd ((jsTruthy_eq_true_iff _).1 hb) hg
    simp [checkResult, hv, hgf, he, hn]
  · intro hv hg hn
    have hgf : jsTruthy result.isGracePeriod = false := by
      rcases hb : jsTruthy result.isGracePeriod
      · rfl
      · exact absurd ((jsTruthy_eq_true_iff _).1 hb) hg
    rcases herr : result.error with _ | e
    · simp [checkResult, hv, hgf, herr, mkValidationError]
    · simp [checkResult, hv, hgf, herr, hn e herr, mkValidationError]

/-- C9: `checkOrThrow` dispatches on the result of the underlying
`validate` call — it resolves silently whenever that result is valid or
flags a grace period; when the result is invalid without grace coverage and
carries a network-failure error, that exact error is thrown; otherwise a
validation-failure error is thrown whose message is the result's reason
with `"License validation failed"` as fallback and which carries the
result's reason, status, expiry and allowed data. -/
theorem claim_C9_checkOrThrow_dispatch (config : LicenseAgentConfig)
    (state : AgentState) (payload : Option ValidationRequestPayload)
    (now responseTime : Int) (remote : RemoteOutcome)
    (r : ValidationResult)
    (hr : r = (LicenseAgent.validate config state payload now remote
      responseTime).result) :
    (LicenseAgent.checkOrThrow config state payload now remote
        responseTime).1 = checkResult r ∧
    ((r.isValid = true ∨ r.isGracePeriod = some true) →
      checkResult r = .ok) ∧
    (r.isValid = false → r.isGracePeriod ≠ some true →
      ∀ e, r.error = some e → e.isNetworkError = true →
        checkResult r = .threw e) ∧
    (r.isValid = false → r.isGracePeriod ≠ some true →
      (∀ e, r.error = some e → e.isNetworkError = false) →
      checkResult r = .threw (AgentError.validationFailure
        (jsOrElse r.reason "License validation failed") r.reason
        r.status r.expiresAt r.allowedData)) := by
  subst hr
  exact ⟨rfl, checkResult_dispatch _⟩

/-- Witness for C9: an online revoked verdict makes `checkOrThrow` throw
the `ValidationError` carrying that verdict's reason and status, while a
network failure with no cache makes it re-throw the network error. -/
theorem claim_C9_witness :
    (LicenseAgent.checkOrThrow sampleConfig { cache := none } none 0
        (.ok sampleRevokedResponse) 0).1 =
      .threw (AgentError.validationFailure "revoked" (some "revoked")
        (some "revoked") none none) ∧
    (LicenseAgent.checkOrThrow sampleConfig { cache := none } none 0
        (.fail "Network Failure") 0).1 =
      .threw (mkNetworkError "Network Failure") := by
  constructor
  · have h := claim_C9_checkOrThrow_dispatch sampleConfig { cache := none }
      none 0 0 (.ok sampleRevokedResponse)
      (LicenseAgent.validate sampleConfig { cache := none } none 0
        (.ok sampleRevokedResponse) 0).result rfl
    rw [h.1]
    decide
  · have h := claim_C9_checkOrThrow_dispatch sampleConfig { cache := none }
      none 0 0 (.fail "Network Failure")
      (LicenseAgent.validate sampleConfig { cache := none } none 0
        (.fail "Network Failure") 0).result rfl
    rw [h.1]
    decide

/-! ### Claim C10: the outbound request body -/

/-- The test-suite configuration extended with static metadata. -/
def metaConfig : LicenseAgentConfig :=
  { sampleConfig with
      staticMetadata := [("deviceType", "server"), ("region", "eu")] }

/-- Association-list lookup used to state the merge semantics: the value of
the first entry holding key `k` (a JS record holds each key at most once,
so within a record the first entry is the only one). -/
def recordGet (m : List (String × String)) (k : String) : Option String :=
  match m with
  | [] => none
  | p :: tl => if p.1 = k then some p.2 else recordGet tl k

/-- A key absent from the key list has no binding. -/
theorem recordGet_eq_none_of_not_mem_keys (m : List (String × String))
    (k : String) (h : k ∉ m.map Prod.fst) : recordGet m k = none := by
  induction m with
  | nil => rfl
  | cons p tl ih =>
    simp only [List.map_cons, List.mem_cons, not_or] at h
    have hp : ¬ p.1 = k := fun hh => h.1 hh.symm
    simp [recordGet, hp, ih h.2]

/-- The in-place overwrite step of `recordAssign` leaves every other key's
binding untouched. -/
theorem recordGet_map_assign (m : List (String × String))
    (kv : String × String) (k : String) (hk : kv.1 ≠ k) :
    recordGet (m.map fun p => if p.1 = kv.1 then kv else p) k =
      recordGet m k := by
  induction m with
  | nil => rfl
  | cons p tl ih =>
    by_cases hp : p.1 = kv.1
    · simp [recordGet, hp, hk, ih]
    · simp [recordGet, hp, ih]

/-- The in-place overwrite step of `recordAssign` installs the new value at
its key whenever the key was already bound. -/
theorem recordGet_map_assign_self (m : List (String × String))
    (kv : String × String)
    (hmem : m.any (fun p => p.1 = kv.1) = true) :
    recordGet (m.map fun p => if p.1 = kv.1 then kv else p) kv.1 =
      some kv.2 := by
  induction m with
  | nil => simp at hmem
  | cons p tl ih =>
    by_cases hp : p.1 = kv.1
    · simp [recordGet, hp]
    · have htl : tl.any (fun p => p.1 = kv.1) = true := by
        simpa [List.any_cons, hp] using hmem
      simp [recordGet, hp, ih htl]

/-- Lookup after appending one entry: the old binding wins, the appended
entry only answers for a previously unbound key. -/
theorem recordGet_append_single (m : List (String × String))
    (kv : String × String) (k : String) :
    recordGet (m ++ [kv]) k =
      match recordGet m k with
      | some v => some v
      | none => if kv.1 = k then some kv.2 else none := by
  induction m with
  | nil => rfl
  | cons p tl ih =>
    by_cases hp : p.1 = k
    · simp [recordGet, hp]
    · simp [recordGet, hp, ih]

/-- Lookup after one spread assignment: the assigned key now binds the
assigned value, every other key keeps its old binding. -/
theorem recordGet_assign (m : List (String × String)) (kv : String × String)
    (k : String) :
    recordGet (recordAssign m kv) k =
      if kv.1 = k then some kv.2 else recordGet m k := by
  unfold recordAssign
  by_cases hmem : m.any (fun p => p.1 = kv.1) = true
  · rw [if_pos hmem]
    by_cases hk : kv.1 = k
    · rw [if_pos hk, ← hk, recordGet_map_assign_self m kv hmem]
    · rw [if_neg hk, recordGet_map_assign m kv k hk]
  · rw [if_neg hmem, recordGet_append_single]
    have hnone : recordGet m kv.1 = none := by
      apply recordGet_eq_none_of_not_mem_keys
      intro hmem2
      apply hmem
      rw [List.any_eq_true]
      rcases List.mem_map.1 hmem2 with ⟨p, hp, hpk⟩
      exact ⟨p, hp, by simp [hpk]⟩
    by_cases hk : kv.1 = k
    · subst hk
      rw [hnone]
    · rw [if_neg hk]
      cases h : recordGet m k <;> simp [hk]

/-- Spread semantics, static side: a key the overriding record does not
bind keeps its binding from the base record. -/
theorem recordGet_merge_of_none (a b : List (String × String)) (k : String) :
    recordGet b k = none → recordGet (recordMerge a b) k = recordGet a k := by
  induction b generalizing a with
  | nil => intro _; rfl
  | cons kv tl ih =>
    intro h
    by_cases hk : kv.1 = k
    · simp [recordGet, hk] at h
    · have htl : recordGet tl k = none := by simpa [recordGet, hk] using h
      have hstep : recordMerge a (kv :: tl) =
        recordMerge (recordAssign a kv) tl := rfl
      rw [hstep, ih (recordAssign a kv) htl, recordGet_assign, if_neg hk]

/-- Spread semantics, dynamic side: a key the overriding record binds (its
keys being unique, as in any JS record) takes the overriding value,
whatever the base record held. -/
theorem recordGet_merge_of_some (a b : List (String × String))
    (k v : String) :
    (b.map Prod.fst).Nodup → recordGet b k = some v →
      recordGet (recordMerge a b) k = some v := by
  induction b generalizing a with
  | nil =>
    intro _ h
    simp [recordGet] at h
  | cons kv tl ih =>
    intro hnd h
    rw [List.map_cons, List.nodup_cons] at hnd
    have hstep : recordMerge a (kv :: tl) =
      recordMerge (recordAssign a kv) tl := rfl
    by_cases hk : kv.1 = k
    · have hv : kv.2 = v := by simpa [recordGet, hk] using h
      have htl : recordGet tl k = none := by
        apply recordGet_eq_none_of_not_mem_keys
        rw [← hk]
        exact hnd.1
      rw [hstep, recordGet_merge_of_none (recordAssign a kv) tl k htl,
        recordGet_assign, if_pos hk, hv]
    · have htl : recordGet tl k = some v := by
        simpa [recordGet, hk] using h
      rw [hstep]
      exact ih (recordAssign a kv) hnd.2 htl

/-- Whenever `validate` reports a posted request, that request is the body
`buildRequest` assembles from the configuration and the payload. -/
theorem validate_request_eq (config : LicenseAgentConfig)
    (state : AgentState) (payload : Option ValidationRequestPayload)
    (now : Int) (remote : RemoteOutcome) (responseTime : Int)
    (req : ApiValidateRequest)
    (hreq : (LicenseAgent.validate config state payload now remote
      responseTime).request = some req) :
    req = LicenseAgent.buildRequest config payload := by
  rcases hc : state.cache with _ | entry
  · rw [validate_cache_empty config state payload now remote responseTime hc,
      attemptOnline_request] at hreq
    exact (Option.some.inj hreq).symm
  · by_cases hfresh : now - entry.timestamp < config.cacheTTL
    · rw [validate_cache_fresh config state payload now remote responseTime
        entry hc hfresh] at hreq
      simp at hreq
    · rw [validate_cache_stale config state payload now remote responseTime
        entry hc hfresh, attemptOnline_request] at hreq
      exact (Option.some.inj hreq).symm

/-! ### Claim C10: the outbound request body -/

/-- The per-call dynamic metadata as `validate` spreads it: the payload's
record, or nothing when no payload was passed (`payload?.metadata`). -/
def dynamicMetadata : Option ValidationRequestPayload →
    List (String × String)
  | some p => p.metadata
  | none => []

/-- C10: every remote attempt posted by `validate` carries the request body
built from the configuration — the `license_key` and `product_name` strings
copied from the required config fields, and a metadata field equal to the
JS spread of the per-call dynamic metadata over the static configuration
metadata, omitted entirely when the merged record is empty. The spread
overrides as the claim states: a key bound by the dynamic record (whose
keys are unique, as a JS record holds each key once) takes its dynamic
value, and a key it does not bind keeps its static value. -/
theorem claim_C10_outbound_request (config : LicenseAgentConfig)
    (state : AgentState) (payload : Option ValidationRequestPayload)
    (now : Int) (remote : RemoteOutcome) (responseTime : Int)
    (req : ApiValidateRequest)
    (hreq : (LicenseAgent.validate config state payload now remote
      responseTime).request = some req) :
    req = LicenseAgent.buildRequest config payload ∧
    req.license_key = config.licenseKey ∧
    req.product_name = config.productName ∧
    req.metadata = (if recordMerge config.staticMetadata
        (dynamicMetadata payload) = [] then none
      else some (recordMerge config.staticMetadata
        (dynamicMetadata payload))) ∧
    (∀ a b k, recordGet b k = none →
      recordGet (recordMerge a b) k = recordGet a k) ∧
    (∀ a b k v, (b.map Prod.fst).Nodup → recordGet b k = some v →
      recordGet (recordMerge a b) k = some v) := by
  have he := validate_request_eq config state payload now remote responseTime
    req hreq
  subst he
  refine ⟨rfl, rfl, rfl, ?_, recordGet_merge_of_none,
    recordGet_merge_of_some⟩
  cases payload <;> rfl

/-- Witness for C10: with static metadata (deviceType, region) and dynamic
metadata (region, userId), the posted body carries the configured license
key, and the merged metadata keeps deviceType, takes the dynamic region
value, and appends userId. -/
theorem claim_C10_witness :
    (LicenseAgent.buildRequest metaConfig
        (some { metadata := [("region", "us"), ("userId", "user123")] })
      ).license_key = "lic_testkey" ∧
    (LicenseAgent.buildRequest metaConfig
        (some { metadata := [("region", "us"), ("userId", "user123")] })
      ).metadata =
      some [("deviceType", "server"), ("region", "us"),
        ("userId", "user123")] := by
  have h := claim_C10_outbound_request metaConfig { cache := none }
    (some { metadata := [("region", "us"), ("userId", "user123")] }) 0
    (.ok sampleResponse) 0
    (LicenseAgent.buildRequest metaConfig
      (some { metadata := [("region", "us"), ("userId", "user123")] }))
    (by rw [validate_online_success metaConfig { cache := none }
        (some { metadata := [("region", "us"), ("userId", "user123")] }) 0
        sampleResponse 0 (Or.inl rfl)])
  refine ⟨?_, ?_⟩
  · rw [h.2.1]
    rfl
  · rw [h.2.2.2.1]
    decide
